import Mathlib

/-!
Verification of the xQR server core (src/src/components/HomeView.jsx and the
SQLite adapter) against its natural-language specification.

The JavaScript source is shallowly embedded: the `LRUMap` class, the rate
limiter middleware and its hourly sweep, the `/user/:username` route's inline
24h/3 rate check, the `getBrowser` launch logic, the `/qr/:username/image`
screenshot handler, and the `csrfProtection` middleware are each translated
into executable Lean definitions.  External effects (database lookups, the
Playwright render, the cache write) are passed in explicitly as values of an
environment structure; timestamps are `Int` epoch milliseconds.
-/

/-- Shallow embedding of the `LRUMap extends Map` class (HomeView.jsx lines
743-764).  A JS `Map` is a list of key/value entries in insertion order;
the head of `entries` is the oldest (first-inserted) entry. -/
structure LRUMap (K V : Type) where
  maxSize : Nat
  entries : List (K × V)
deriving DecidableEq

/-- `Map.prototype.delete key`: removes the entry for `key` (a JS map holds at
most one entry per key, so filtering all matches is the same removal). -/
def eraseKey [DecidableEq K] (l : List (K × V)) (k : K) : List (K × V) :=
  l.filter (fun p => decide (p.1 ≠ k))

/-- `Map.prototype.get key` without the LRU reordering: the stored value. -/
def lookupKey [DecidableEq K] (l : List (K × V)) (k : K) : Option V :=
  (l.find? (fun p => decide (p.1 = k))).map Prod.snd

/-- `Map.prototype.has key`. -/
def LRUMap.hasKey [DecidableEq K] (m : LRUMap K V) (k : K) : Bool :=
  (lookupKey m.entries k).isSome

/-- `LRUMap.set`: delete the key if present, append the entry at the
most-recently-used end, and if the size now exceeds `maxSize` delete the
first (least-recently-used) entry. -/
def LRUMap.set [DecidableEq K] (m : LRUMap K V) (k : K) (v : V) : LRUMap K V :=
  let l := eraseKey m.entries k
  let l := l ++ [(k, v)]
  let l := if l.length > m.maxSize then l.tail else l
  ⟨m.maxSize, l⟩

/-- `LRUMap.get`: `undefined` on a missing key (no side effect); otherwise
return the value and move the entry to the most-recently-used end. -/
def LRUMap.get [DecidableEq K] (m : LRUMap K V) (k : K) : Option V × LRUMap K V :=
  match lookupKey m.entries k with
  | none => (none, m)
  | some v => (some v, ⟨m.maxSize, eraseKey m.entries k ++ [(k, v)]⟩)

/-- `Map.prototype.delete` lifted to the wrapper. -/
def LRUMap.del [DecidableEq K] (m : LRUMap K V) (k : K) : LRUMap K V :=
  ⟨m.maxSize, eraseKey m.entries k⟩

/-- A fresh `new LRUMap(n)`. -/
def LRUMap.empty (K V : Type) (n : Nat) : LRUMap K V := ⟨n, []⟩

/-- One externally observable map operation (the value written by `set`, or
the key probed by `get`). -/
inductive LRUOp (K V : Type)
  | get (k : K)
  | set (k : K) (v : V)

/-- Apply one operation, discarding `get`'s returned value. -/
def LRUMap.applyOp [DecidableEq K] (m : LRUMap K V) : LRUOp K V → LRUMap K V
  | .get k => (m.get k).2
  | .set k v => m.set k v

/-- Apply a whole sequence of operations. -/
def LRUMap.applyOps [DecidableEq K] (m : LRUMap K V) (ops : List (LRUOp K V)) : LRUMap K V :=
  ops.foldl LRUMap.applyOp m


/-! ## Rate limiting (HomeView.jsx lines 766-824, 1199-1220) -/

/-- `Math.ceil(a / 1000)` on epoch-millisecond integers, as used for the
`retryAfter` hints. -/
def jsCeilDiv1000 (a : Int) : Int := -((-a).fdiv 1000)

/-- `PROFILE_CACHE_TTL` (1 week, ms). -/
def PROFILE_CACHE_TTL : Int := 604800000

/-- `SCREENSHOT_CACHE_TTL` (1 hour, ms). -/
def SCREENSHOT_CACHE_TTL : Int := 3600000

/-- `CSRF_TOKEN_EXPIRY` (24 hours, ms). -/
def CSRF_TOKEN_EXPIRY : Int := 86400000

/-- Outcome of one pass of a `rateLimiter(maxRequests, windowMs)` middleware
instance for one request (lines 782-807): whether `next()` ran, the
`retryAfter` hint of the 429 body (0 when allowed), and the mutated
`rateLimitStore`. -/
structure RateResult where
  allowed : Bool
  retryAfter : Int
  store : LRUMap String (List Int)
deriving DecidableEq

/-- The body of the Hono middleware returned by
`rateLimiter(maxRequests, windowMs, routeName)`.  All instances share the
single `rateLimitStore`, which is threaded in and out. -/
def rateLimiterCheck (maxRequests : Nat) (windowMs : Int)
    (store : LRUMap String (List Int)) (key : String) (now : Int) : RateResult :=
  let windowStart := now - windowMs
  let store0 := if store.hasKey key then store else store.set key []
  let gotten := store0.get key
  let requests := gotten.1.getD []
  let validRequests := requests.filter (fun t => decide (t > windowStart))
  if validRequests.length ≥ maxRequests then
    { allowed := false,
      retryAfter := jsCeilDiv1000 (windowStart + windowMs - now),
      store := gotten.2 }
  else
    { allowed := true, retryAfter := 0,
      store := gotten.2.set key (validRequests ++ [now]) }

/-- `globalLimiter = rateLimiter(300, 15 * 60 * 1000, 'global')`, installed by
`app.use('*', globalLimiter)` on every route. -/
def globalLimiterCheck : LRUMap String (List Int) → String → Int → RateResult :=
  rateLimiterCheck 300 900000

/-- `authLimiter = rateLimiter(10, 15 * 60 * 1000, 'auth routes')`. -/
def authLimiterCheck : LRUMap String (List Int) → String → Int → RateResult :=
  rateLimiterCheck 10 900000

/-- The `for (const [ip, requests] of rateLimitStore.entries())` loop of the
hourly cleanup interval (lines 813-824), with `maxWindow = 15 * 60 * 1000`.
A JS `Map` iterator visits entries in insertion order and also visits entries
inserted while the iteration is in progress; since the overridden
`LRUMap.set` deletes the visited entry and re-appends it at the end of the
map, an entry kept by the sweep is re-visited later by the same iterator.
The argument list is the part of the map at and after the iterator's cursor
(it always equals the whole map, because visited entries were deleted or
moved behind the cursor).  `fuel` bounds the number of loop iterations;
`none` means the loop was still running when the fuel ran out. -/
def rateSweepLoop (now : Int) : Nat → List (String × List Int) → Option (List (String × List Int))
  | 0, _ => none
  | _ + 1, [] => some []
  | fuel + 1, (ip, requests) :: rest =>
    let validRequests := requests.filter (fun t => decide (t > now - 900000))
    if validRequests.isEmpty then rateSweepLoop now fuel rest
    else rateSweepLoop now fuel (rest ++ [(ip, validRequests)])

/-- The hourly rate-limit sweep on the whole store. -/
def rateLimitSweep (now : Int) (fuel : Nat) (store : LRUMap String (List Int)) :
    Option (LRUMap String (List Int)) :=
  (rateSweepLoop now fuel store.entries).map (fun l => ⟨store.maxSize, l⟩)

/-- ASCII lowercasing of one character, as `toLowerCase` acts on the ASCII
range (the only characters a valid username can contain). -/
def jsLowerChar (c : Char) : Char :=
  if ('A' ≤ c ∧ c ≤ 'Z') then Char.ofNat (c.toNat + 32) else c

/-- ASCII whitespace for `trim`. -/
def jsWhitespace (c : Char) : Bool :=
  decide (c = ' ' ∨ c = '\t' ∨ c = '\n' ∨ c = '\r')

/-- Normalization applied by both `/user/:username` and `/qr/:username/image`:
`username.replace(/^@/, '').trim().toLowerCase()`, written over the
character list so that it evaluates inside the kernel. -/
def cleanUsername (u : String) : String :=
  let cs := match u.data with
    | '@' :: rest => rest
    | cs => cs
  let cs := ((cs.dropWhile jsWhitespace).reverse.dropWhile jsWhitespace).reverse
  ⟨cs.map jsLowerChar⟩

/-- One character of the `/^[a-zA-Z0-9_]{1,15}$/` username pattern. -/
def usernameChar (c : Char) : Bool :=
  decide (('a' ≤ c ∧ c ≤ 'z') ∨ ('A' ≤ c ∧ c ≤ 'Z') ∨ ('0' ≤ c ∧ c ≤ '9') ∨ c = '_')

/-- The `/^[a-zA-Z0-9_]{1,15}$/` test. -/
def validUsername (u : String) : Bool :=
  decide (1 ≤ u.data.length) && decide (u.data.length ≤ 15) && u.data.all usernameChar

/-- The inline 24-hour / ceiling-3 rate check of `/user/:username`
(lines 1201-1220), run only on profile-cache misses and only when
`DISABLE_RATE_LIMIT` is not set.  Returns (allowed, retryAfter, store). -/
def userRouteRateCheck (store : LRUMap String (List Int)) (ip : String) (now : Int) :
    Bool × Int × LRUMap String (List Int) :=
  let windowMs : Int := 86400000
  let store0 := if store.hasKey ip then store else store.set ip []
  let gotten := store0.get ip
  let requests := (gotten.1.getD []).filter (fun t => decide (t > now - windowMs))
  if requests.length ≥ 3 then
    (false, jsCeilDiv1000 (requests.headD 0 + windowMs - now), gotten.2)
  else
    (true, 0, gotten.2.set ip (requests ++ [now]))

/-- Observable outcome of a `GET /user/:username` request. -/
inductive UserOutcome
  | tooMany                        -- 429 from the global limiter middleware
  | unavailable                    -- 503, X client not configured
  | invalidUsername                -- 400
  | cacheHit                       -- 200 served from the fresh profile cache
  | rateLimited (retryAfter : Int) -- 429 from the 24h/3 check
  | fetched                        -- proceeds to the external X API fetch
deriving DecidableEq

/-- The cache-miss tail of `/user/:username`: the `DISABLE_RATE_LIMIT` guard
and the 24h/3 check, after which the external fetch runs. -/
def userFetchPath (disableRateLimit : Bool) (store : LRUMap String (List Int))
    (ip : String) (now : Int) : UserOutcome × LRUMap String (List Int) :=
  if disableRateLimit then (.fetched, store)
  else
    let narrow := userRouteRateCheck store ip now
    if narrow.1 = false then (.rateLimited narrow.2.1, narrow.2.2)
    else (.fetched, narrow.2.2)

/-- A whole `GET /user/:username` request (lines 1173-1295) as far as rate
limiting and caching are concerned: the `globalLimiter` middleware runs
first on the shared `rateLimitStore`, then the handler checks the X client,
validates the username, probes the durable profile cache
(`profileCachedAt` is the stored `cached_at`, if any), and only on a
stale-or-missing entry runs the 24h/3 check before the external fetch. -/
def userRequest (xAvailable disableRateLimit : Bool) (profileCachedAt : Option Int)
    (store : LRUMap String (List Int)) (uname ip : String) (now : Int) :
    UserOutcome × LRUMap String (List Int) :=
  let broad := globalLimiterCheck store ip now
  if broad.allowed = false then (.tooMany, broad.store)
  else if xAvailable = false then (.unavailable, broad.store)
  else if validUsername (cleanUsername uname) = false then (.invalidUsername, broad.store)
  else
    let fresh := match profileCachedAt with
      | some t => decide (now - t < PROFILE_CACHE_TTL)
      | none => false
    if fresh then (.cacheHit, broad.store)
    else userFetchPath disableRateLimit broad.store ip now

/-! ## Browser process acquisition (HomeView.jsx lines 684-733) -/

/-- The module-level mutable state around `getBrowser`: `persistentBrowser`
(a launched browser handle, identified by a number), `screenshotCount`, plus
two ghost counters: how many `pw.webkit.launch` calls have been made and the
next fresh handle id.  Playwright itself is taken as already loaded. -/
structure BrowserState where
  persistentBrowser : Option Nat
  screenshotCount : Nat
  launches : Nat
  nextId : Nat
deriving DecidableEq

/-- Where one `getBrowser()` caller is between its `await` suspension points:
not yet started; suspended inside `restartBrowser`'s `browser.close()`;
suspended inside `pw.webkit.launch` (holding the id its launch will
produce); or returned with a handle. -/
inductive AcqPhase
  | start
  | closing
  | launching (h : Nat)
  | done (h : Nat)
deriving DecidableEq

/-- The synchronous segment of `getBrowser` from the
`persistentBrowser?.isConnected()` check onward: reuse a connected handle,
otherwise start `pw.webkit.launch` (counted at the moment the call is made)
and suspend. -/
def checkOrLaunch (isConnected : Nat → Bool) (s : BrowserState) : BrowserState × AcqPhase :=
  match s.persistentBrowser with
  | some h =>
    if isConnected h then (s, .done h)
    else ({ s with launches := s.launches + 1, nextId := s.nextId + 1 }, .launching s.nextId)
  | none => ({ s with launches := s.launches + 1, nextId := s.nextId + 1 }, .launching s.nextId)

/-- One scheduler step of one `getBrowser()` caller.  From `start`: if
`screenshotCount >= MAX_SCREENSHOTS_BEFORE_RESTART && persistentBrowser`,
enter `restartBrowser` and suspend in its `close()`; otherwise run the
connectivity check.  Resuming from the close clears `persistentBrowser` and
zeroes `screenshotCount`, then runs the connectivity check.  Resuming from a
launch publishes the launched handle and returns it. -/
def acquireStep (isConnected : Nat → Bool) (s : BrowserState) :
    AcqPhase → BrowserState × AcqPhase
  | .start =>
    if s.screenshotCount ≥ 100 ∧ s.persistentBrowser.isSome = true then (s, .closing)
    else checkOrLaunch isConnected s
  | .closing => checkOrLaunch isConnected { s with persistentBrowser := none, screenshotCount := 0 }
  | .launching h => ({ s with persistentBrowser := some h }, .done h)
  | .done h => (s, .done h)

/-- Run a schedule: `callers` holds each concurrent caller's phase, and the
schedule names, in order, which caller's next segment the event loop runs.
Steps aimed at a missing index are skipped. -/
def runSchedule (isConnected : Nat → Bool) :
    BrowserState → List AcqPhase → List Nat → BrowserState × List AcqPhase
  | s, callers, [] => (s, callers)
  | s, callers, i :: rest =>
    match callers[i]? with
    | none => runSchedule isConnected s callers rest
    | some ph =>
      let next := acquireStep isConnected s ph
      runSchedule isConnected next.1 (callers.set i next.2) rest

/-! ## The screenshot endpoint `GET /qr/:username/image` (lines 1297-1418) -/

/-- A raw numeric query parameter as seen after `parseInt`/`parseFloat`:
absent (or empty, so the default string is parsed), present but not a number
(`NaN`), or present with value `n`. -/
inductive RawParam (α : Type)
  | missing
  | nan
  | num (n : α)

/-- `parseInt(rawW || "393")`; `none` is `NaN`. -/
def parseWidth : RawParam Int → Option Int
  | .missing => some 393
  | .nan => none
  | .num n => some n

/-- `parseInt(rawH || "852")`; `none` is `NaN`. -/
def parseHeight : RawParam Int → Option Int
  | .missing => some 852
  | .nan => none
  | .num n => some n

/-- `parseFloat(rawScale || "3")`; `none` is `NaN`.  JS numbers are modelled
as rationals. -/
def parseScale : RawParam ℚ → Option ℚ
  | .missing => some 3
  | .nan => none
  | .num q => some q

/-- `c.req.query("theme") === "light" ? "light" : "dark"`. -/
def themeOf (t : Option String) : String :=
  if t = some ("light") then ("light") else ("dark")

/-- The dimension validation of line 1312:
`isNaN(width) || isNaN(height) || isNaN(scale) || width < 100 || width > 1200
|| height < 100 || height > 1000 || scale < 1 || scale > 4` rejects. -/
def screenshotDimsValid (w h : Option Int) (s : Option ℚ) : Bool :=
  match w, h, s with
  | some w, some h, some s =>
    !(decide (w < 100) || decide (w > 1200) || decide (h < 100) || decide (h > 1000) ||
      decide (s < 1) || decide (s > 4))
  | _, _, _ => false

/-- The composite screenshot-cache key of line 1332:
`username_widthxheight_scale_theme`. -/
def screenshotCacheKey (u : String) (w h : Int) (s : ℚ) (theme : String) : String :=
  u ++ "_" ++ toString w ++ "x" ++ toString h ++ "_" ++ toString s ++ "_" ++ theme

/-- The freshness test of line 1339:
`cachedScreenshot && Date.now() - cachedScreenshot.cached_at < SCREENSHOT_CACHE_TTL`. -/
def freshImage (lookup : Option (List Nat × Int)) (now : Int) : Option (List Nat) :=
  match lookup with
  | some img => if now - img.2 < SCREENSHOT_CACHE_TTL then some img.1 else none
  | none => none

/-- The request's external collaborators, passed in explicitly:
whether `getCachedProfile` found a row (truthiness is all the route checks),
the `getCachedImage` lookup by cache key (image bytes and `cached_at`),
whether `getBrowser()` produced a browser (`null` means Playwright missing),
the outcome of the navigate/wait/screenshot/close sequence inside the `try`
(aggregated: any throw lands in the catch), and the outcome of the awaited
`setCachedImage` write. -/
structure ScreenshotEnv where
  profileCached : Bool
  getCachedImage : String → Option (List Nat × Int)
  browserAvailable : Bool
  render : Except Unit (List Nat)
  cacheWrite : Except Unit Unit

/-- Observable outcome of a `GET /qr/:username/image` request. -/
inductive ScreenshotResult
  | invalidDims               -- 400 invalid dimensions
  | invalidUsername           -- 400 invalid username format
  | notCached                 -- 404 profile not cached
  | cachedBytes (img : List Nat) -- 200 from the screenshot cache
  | unavailable               -- 503 screenshot service unavailable
  | bytes (img : List Nat)    -- 200, freshly rendered
  | renderFailed              -- 500 from the catch block
deriving DecidableEq

/-- The screenshot handler after dimension validation.  Returns the response
and whether the render pipeline (browser navigation and capture) ran. -/
def screenshotCore (env : ScreenshotEnv) (cu : String) (w h : Int) (s : ℚ)
    (theme : String) (now : Int) : ScreenshotResult × Bool :=
  if validUsername cu = false then (.invalidUsername, false)
  else if env.profileCached = false then (.notCached, false)
  else
    let cacheKey := screenshotCacheKey cu w h s theme
    match freshImage (env.getCachedImage cacheKey) now with
    | some img => (.cachedBytes img, false)
    | none =>
      if env.browserAvailable = false then (.unavailable, false)
      else
        match env.render with
        | .error _ => (.renderFailed, true)
        | .ok img =>
          match env.cacheWrite with
          | .error _ => (.renderFailed, true)
          | .ok _ => (.bytes img, true)

/-- A whole `GET /qr/:username/image` request: parse the query parameters
with their defaults, validate dimensions, then normalize the username and
run the core. -/
def screenshotRequest (env : ScreenshotEnv) (uname : String) (rawW rawH : RawParam Int)
    (rawScale : RawParam ℚ) (rawTheme : Option String) (now : Int) :
    ScreenshotResult × Bool :=
  let wOpt := parseWidth rawW
  let hOpt := parseHeight rawH
  let sOpt := parseScale rawScale
  if screenshotDimsValid wOpt hOpt sOpt = false then (.invalidDims, false)
  else
    match wOpt, hOpt, sOpt with
    | some w, some h, some s =>
      screenshotCore env (cleanUsername uname) w h s (themeOf rawTheme) now
    | _, _, _ => (.invalidDims, false)

/-! ## CSRF protection (HomeView.jsx lines 773-779, 1012-1032) -/

/-- A `csrfTokenStore` entry: `{ token, timestamp }`. -/
structure CsrfData where
  token : String
  timestamp : Int
deriving DecidableEq

/-- Observable outcome of the `csrfProtection` middleware. -/
inductive CsrfOutcome
  | invalid   -- 403 Invalid CSRF token
  | expired   -- 403 CSRF token expired (entry deleted)
  | ok        -- await next()
deriving DecidableEq

/-- The `csrfProtection` middleware (lines 1013-1032): reject a missing or
empty header/user id; look the session up (the `LRUMap.get` moves the entry
to most-recently-used); reject a missing entry or mismatched token; on a
matching token older than `CSRF_TOKEN_EXPIRY`, delete the entry and reject;
otherwise run the route. -/
def csrfProtection (store : LRUMap String CsrfData) (userID : Option String)
    (csrfToken : Option String) (now : Int) : CsrfOutcome × LRUMap String CsrfData :=
  match csrfToken, userID with
  | some tok, some uid =>
    if tok = "" ∨ uid = "" then (.invalid, store)
    else
      let gotten := store.get uid
      match gotten.1 with
      | none => (.invalid, gotten.2)
      | some d =>
        if d.token ≠ tok then (.invalid, gotten.2)
        else if now - d.timestamp > CSRF_TOKEN_EXPIRY then (.expired, gotten.2.del uid)
        else (.ok, gotten.2)
  | _, _ => (.invalid, store)

/-! ## Concrete instances used by individual claims -/

/-- A fresh `rateLimitStore = new LRUMap(10000)`. -/
def rateLimitStore0 : LRUMap String (List Int) := LRUMap.empty String (List Int) 10000

/-- C1 counterexample environment: profile cached, screenshot cache cold,
browser up, the capture succeeds with bytes `[1, 2, 3]`, but the awaited
`setCachedImage` write throws. -/
def c1CounterEnv : ScreenshotEnv :=
  ⟨true, fun _ => none, true, .ok [1, 2, 3], .error ()⟩

/-- C1 witness environment: as above but the cache write succeeds. -/
def c1WitnessEnv : ScreenshotEnv :=
  ⟨true, fun _ => none, true, .ok [5], .ok ()⟩

/-- The shared `rateLimitStore` after three requests to arbitrary routes from
one client at times 0, 1, 2 ms: only the broad `globalLimiter` has recorded
events, no profile fetch has ever happened. -/
def c2BroadStore : LRUMap String (List Int) :=
  (globalLimiterCheck (globalLimiterCheck
    (globalLimiterCheck rateLimitStore0 ("ip") 0).store ("ip") 1).store ("ip") 2).store

/-- The store after one `/user` cache-miss fetch from "ip" at time 0. -/
def c2FetchedStore : LRUMap String (List Int) :=
  (userRequest true false none rateLimitStore0 ("alice") ("ip") 0).2

/-- The store after one `/user` cache-miss fetch from "ip" at time 0 (the
sweep claim's failing input). -/
def c3FetchedStore : LRUMap String (List Int) :=
  (userRequest true false none rateLimitStore0 ("alice") ("ip") 0).2

/-- C5 scenario: the store after an allowed `rateLimiter(3, 1000)` call at 0. -/
def c5store1 : LRUMap String (List Int) :=
  (rateLimiterCheck 3 1000 rateLimitStore0 ("k") 0).store

/-- ... after a second allowed call at 100. -/
def c5store2 : LRUMap String (List Int) :=
  (rateLimiterCheck 3 1000 c5store1 ("k") 100).store

/-- ... after a third allowed call at 200. -/
def c5store3 : LRUMap String (List Int) :=
  (rateLimiterCheck 3 1000 c5store2 ("k") 200).store

/-- C7 witness environment: the profile-cache lookup found nothing. -/
def c7Env : ScreenshotEnv :=
  ⟨false, fun _ => none, true, .ok [1], .ok ()⟩

/-- C8 environment: everything downstream of validation succeeds, rendering
bytes `[9]`. -/
def c8Env : ScreenshotEnv :=
  ⟨true, fun _ => none, true, .ok [9], .ok ()⟩

/-- C10 environment: the screenshot cache holds bytes `[7]` (stored at time
0) under exactly the key composed from the default parameters. -/
def c10Env : ScreenshotEnv :=
  ⟨true, (fun k => if k = ("alice_393x852_3_dark") then some ([7], 0) else none),
   true, .ok [9], .ok ()⟩

/-- C9 store: session "u1" holds token "tok" issued at time 0. -/
def c9Store : LRUMap String CsrfData := ⟨5000, [(("u1"), ⟨("tok"), 0⟩)]⟩

section LRULemmas

variable {K V : Type} [DecidableEq K]

theorem eraseKey_length_le (l : List (K × V)) (k : K) :
    (eraseKey l k).length ≤ l.length :=
  List.length_filter_le _ l

theorem lookupKey_eraseKey_self (l : List (K × V)) (k : K) :
    lookupKey (eraseKey l k) k = none := by
  unfold lookupKey eraseKey
  rw [Option.map_eq_none', List.find?_eq_none]
  intro x hx
  have hne := List.of_mem_filter hx
  simp at hne ⊢
  exact hne

theorem eraseKey_of_lookup_none (l : List (K × V)) (k : K)
    (h : lookupKey l k = none) : eraseKey l k = l := by
  unfold lookupKey at h
  rw [Option.map_eq_none', List.find?_eq_none] at h
  apply List.filter_eq_self.mpr
  intro p hp
  have := h p hp
  simp at this ⊢
  exact this

theorem length_filter_lt_of_mem (l : List α) (p : α → Bool) (a : α)
    (ha : a ∈ l) (hpa : p a = false) : (l.filter p).length < l.length := by
  induction l with
  | nil => cases ha
  | cons b t ih =>
    rw [List.filter_cons]
    rcases List.mem_cons.mp ha with rfl | hat
    · have hle := List.length_filter_le p t
      simp only [hpa, Bool.false_eq_true, if_false, List.length_cons]
      omega
    · by_cases hb : p b = true
      · simp only [hb, if_pos, List.length_cons]
        exact Nat.succ_lt_succ (ih hat)
      · have hb2 : p b = false := by
          cases hpb : p b
          · rfl
          · exact absurd hpb hb
        have hle := List.length_filter_le p t
        simp only [hb2, Bool.false_eq_true, if_false, List.length_cons]
        omega

theorem eraseKey_length_lt (l : List (K × V)) (k : K) (v : V)
    (h : lookupKey l k = some v) : (eraseKey l k).length < l.length := by
  unfold lookupKey at h
  rw [Option.map_eq_some'] at h
  obtain ⟨p, hf, _⟩ := h
  have hp := List.find?_some hf
  have hmem := List.mem_of_find?_eq_some hf
  apply length_filter_lt_of_mem l _ p hmem
  simp at hp ⊢
  exact hp

theorem lookupKey_append_self (l : List (K × V)) (k : K) (v : V)
    (h : lookupKey l k = none) : lookupKey (l ++ [(k, v)]) k = some v := by
  unfold lookupKey at h ⊢
  rw [Option.map_eq_none'] at h
  rw [List.find?_append, h]
  simp

theorem LRUMap.set_length_le (m : LRUMap K V) (k : K) (v : V)
    (h : m.entries.length ≤ m.maxSize) :
    (m.set k v).entries.length ≤ m.maxSize := by
  unfold LRUMap.set
  have h1 : (eraseKey m.entries k).length ≤ m.entries.length := eraseKey_length_le _ _
  simp only []
  split
  · simp only [List.length_tail, List.length_append]
    simp only [List.length_singleton]
    omega
  · rename_i hc
    simp only [List.length_append, List.length_singleton] at hc ⊢
    omega

theorem LRUMap.get_length_le (m : LRUMap K V) (k : K)
    (h : m.entries.length ≤ m.maxSize) :
    ((m.get k).2).entries.length ≤ m.maxSize := by
  unfold LRUMap.get
  cases hl : lookupKey m.entries k with
  | none => exact h
  | some v =>
    have := eraseKey_length_lt m.entries k v hl
    simp only [List.length_append, List.length_singleton]
    omega

theorem LRUMap.maxSize_get (m : LRUMap K V) (k : K) :
    ((m.get k).2).maxSize = m.maxSize := by
  unfold LRUMap.get
  cases hl : lookupKey m.entries k with
  | none => rfl
  | some v => rfl

theorem LRUMap.maxSize_applyOp (m : LRUMap K V) (op : LRUOp K V) :
    (m.applyOp op).maxSize = m.maxSize := by
  cases op with
  | get k => exact LRUMap.maxSize_get m k
  | set k v => rfl

theorem LRUMap.applyOp_length_le (m : LRUMap K V) (op : LRUOp K V)
    (h : m.entries.length ≤ m.maxSize) :
    (m.applyOp op).entries.length ≤ m.maxSize := by
  cases op with
  | get k => exact LRUMap.get_length_le m k h
  | set k v => exact LRUMap.set_length_le m k v h

theorem LRUMap.applyOps_inv (ops : List (LRUOp K V)) :
    ∀ (m : LRUMap K V), m.entries.length ≤ m.maxSize →
      (m.applyOps ops).entries.length ≤ (m.applyOps ops).maxSize ∧
      (m.applyOps ops).maxSize = m.maxSize := by
  induction ops with
  | nil => intro m hm; exact ⟨hm, rfl⟩
  | cons op rest ih =>
    intro m hm
    have hms := LRUMap.maxSize_applyOp m op
    have hstep : (m.applyOp op).entries.length ≤ (m.applyOp op).maxSize := by
      rw [hms]; exact LRUMap.applyOp_length_le m op hm
    have hrec := ih (m.applyOp op) hstep
    have heq : m.applyOps (op :: rest) = (m.applyOp op).applyOps rest := rfl
    rw [heq, hrec.2, hms]
    exact ⟨(hrec.2.trans hms) ▸ hrec.1, rfl⟩

theorem LRUMap.applyOps_length_le (n : Nat) (ops : List (LRUOp K V)) :
    ((LRUMap.empty K V n).applyOps ops).entries.length ≤ n := by
  have h := LRUMap.applyOps_inv ops (LRUMap.empty K V n) (by simp [LRUMap.empty])
  exact le_trans h.1 h.2.le

end LRULemmas

section LookupHelpers

variable {K V : Type} [DecidableEq K]

theorem lookupKey_cons_none {t : List (K × V)} {a : K × V} {k : K}
    (h : lookupKey (a :: t) k = none) : lookupKey t k = none := by
  unfold lookupKey at h ⊢
  rw [Option.map_eq_none', List.find?_eq_none] at h ⊢
  intro x hx
  exact h x (List.mem_cons_of_mem a hx)

theorem lookupKey_append_left_none (l1 l2 : List (K × V)) (k : K)
    (h : lookupKey l1 k = none) : lookupKey (l1 ++ l2) k = lookupKey l2 k := by
  unfold lookupKey at h ⊢
  rw [Option.map_eq_none'] at h
  rw [List.find?_append, h, Option.none_or]

theorem lookupKey_cons_self (k : K) (v : V) (t : List (K × V)) :
    lookupKey ((k, v) :: t) k = some v := by
  unfold lookupKey
  rw [List.find?_cons_of_pos]
  · rfl
  · simp

theorem maxSize_set (m : LRUMap K V) (k : K) (v : V) :
    (m.set k v).maxSize = m.maxSize := rfl

theorem lookupKey_set_self_cases (m : LRUMap K V) (k : K) (v : V) :
    lookupKey (m.set k v).entries k = some v ∨ lookupKey (m.set k v).entries k = none := by
  unfold LRUMap.set
  simp only []
  split
  · cases he : eraseKey m.entries k with
    | nil =>
      right
      rfl
    | cons a t =>
      left
      have htail : ((a :: t) ++ [(k, v)]).tail = t ++ [(k, v)] := rfl
      rw [htail]
      apply lookupKey_append_self
      have hn := lookupKey_eraseKey_self m.entries k
      rw [he] at hn
      exact lookupKey_cons_none hn
  · left
    exact lookupKey_append_self _ _ _ (lookupKey_eraseKey_self m.entries k)

theorem lookupKey_set_self (m : LRUMap K V) (k : K) (v : V) (h : 1 ≤ m.maxSize) :
    lookupKey (m.set k v).entries k = some v := by
  unfold LRUMap.set
  simp only []
  split
  · rename_i hgt
    cases he : eraseKey m.entries k with
    | nil =>
      rw [he] at hgt
      simp at hgt
      omega
    | cons a t =>
      have htail : ((a :: t) ++ [(k, v)]).tail = t ++ [(k, v)] := rfl
      rw [htail]
      apply lookupKey_append_self
      have hn := lookupKey_eraseKey_self m.entries k
      rw [he] at hn
      exact lookupKey_cons_none hn
  · exact lookupKey_append_self _ _ _ (lookupKey_eraseKey_self m.entries k)

end LookupHelpers

section RateLimiterHelpers

/-- The list the middleware works with (after the `has`/`set([])` dance and
the LRU-reordering `get`) is exactly the list previously stored under the
key, or `[]` when the key was absent. -/
theorem ensuredRequests (store : LRUMap String (List Int)) (key : String) :
    (((if store.hasKey key then store else store.set key []).get key).1).getD []
      = ((lookupKey store.entries key).getD []) := by
  by_cases hk : store.hasKey key = true
  · rw [if_pos hk]
    unfold LRUMap.get
    cases hl : lookupKey store.entries key with
    | none =>
      unfold LRUMap.hasKey at hk
      rw [hl] at hk
    | some l => simp
  · rw [if_neg hk]
    have hl : lookupKey store.entries key = none := by
      unfold LRUMap.hasKey at hk
      cases hc : lookupKey store.entries key
      · rfl
      · rw [hc] at hk
        simp at hk
    rw [hl]
    unfold LRUMap.get
    rcases lookupKey_set_self_cases store key [] with hc | hc
    · simp [hc]
    · simp [hc]

theorem rate_allowed_iff (maxRequests : Nat) (windowMs : Int)
    (store : LRUMap String (List Int)) (key : String) (now : Int) :
    (rateLimiterCheck maxRequests windowMs store key now).allowed = true ↔
      (((lookupKey store.entries key).getD []).filter
        (fun t => decide (t > now - windowMs))).length < maxRequests := by
  unfold rateLimiterCheck
  simp only []
  rw [ensuredRequests]
  split
  · rename_i hge
    constructor
    · intro hfalse
      simp at hfalse
    · intro hlt
      omega
  · rename_i hge
    constructor
    · intro _
      omega
    · intro _
      rfl

theorem rate_allowed_effect (maxRequests : Nat) (windowMs : Int)
    (store : LRUMap String (List Int)) (key : String) (now : Int)
    (hms : 1 ≤ store.maxSize)
    (hallow : (rateLimiterCheck maxRequests windowMs store key now).allowed = true) :
    lookupKey (rateLimiterCheck maxRequests windowMs store key now).store.entries key
      = some ((((lookupKey store.entries key).getD []).filter
          (fun t => decide (t > now - windowMs))) ++ [now]) := by
  have hlt := (rate_allowed_iff maxRequests windowMs store key now).mp hallow
  unfold rateLimiterCheck
  simp only []
  rw [ensuredRequests]
  rw [if_neg (by omega :
    ¬ (((lookupKey store.entries key).getD []).filter
        (fun t => decide (t > now - windowMs))).length ≥ maxRequests)]
  apply lookupKey_set_self
  have h1 : ((if store.hasKey key then store else store.set key []).get key).2.maxSize
      = (if store.hasKey key then store else store.set key []).maxSize :=
    LRUMap.maxSize_get _ _
  rw [h1]
  by_cases hk : store.hasKey key = true
  · rw [if_pos hk]
    exact hms
  · rw [if_neg hk]
    exact hms

end RateLimiterHelpers

section ScreenshotHelpers

theorem screenshot_parses_of_valid (rawW rawH : RawParam Int) (rawScale : RawParam ℚ)
    (hdims : screenshotDimsValid (parseWidth rawW) (parseHeight rawH) (parseScale rawScale) = true) :
    ∃ w h s, parseWidth rawW = some w ∧ parseHeight rawH = some h ∧
      parseScale rawScale = some s := by
  rcases hw : parseWidth rawW with _ | w
  all_goals rcases hh : parseHeight rawH with _ | h
  all_goals rcases hs : parseScale rawScale with _ | s
  all_goals rw [hw, hh, hs] at hdims
  all_goals first
    | exact ⟨_, _, _, rfl, rfl, rfl⟩
    | exact absurd hdims (by simp [screenshotDimsValid])

theorem screenshotRequest_eq_core (env : ScreenshotEnv) (uname : String)
    (rawW rawH : RawParam Int) (rawScale : RawParam ℚ) (rawTheme : Option String)
    (now : Int) (w h : Int) (s : ℚ)
    (hw : parseWidth rawW = some w) (hh : parseHeight rawH = some h)
    (hs : parseScale rawScale = some s)
    (hdims : screenshotDimsValid (some w) (some h) (some s) = true) :
    screenshotRequest env uname rawW rawH rawScale rawTheme now
      = screenshotCore env (cleanUsername uname) w h s (themeOf rawTheme) now := by
  unfold screenshotRequest
  simp only [hw, hh, hs, hdims]
  simp

end ScreenshotHelpers

section LRUBehaviourHelpers

variable {K V : Type} [DecidableEq K]

theorem lru_evict (m : LRUMap K V) (k : K) (v : V)
    (hlen : m.entries.length = m.maxSize) (hpos : 1 ≤ m.maxSize)
    (habs : lookupKey m.entries k = none) :
    (m.set k v).entries = m.entries.tail ++ [(k, v)] := by
  unfold LRUMap.set
  simp only []
  rw [eraseKey_of_lookup_none m.entries k habs]
  rw [if_pos (by simp [hlen] : (m.entries ++ [(k, v)]).length > m.maxSize)]
  cases hm : m.entries with
  | nil =>
    rw [hm] at hlen
    simp at hlen
    omega
  | cons a t => simp

theorem lru_get_protects (m : LRUMap K V) (k k2 : K) (v w : V)
    (hms : 2 ≤ m.maxSize) (hk : lookupKey m.entries k = some v)
    (hk2 : lookupKey m.entries k2 = none) :
    (((m.get k).2).set k2 w).hasKey k = true := by
  unfold LRUMap.get
  rw [hk]
  simp only []
  unfold LRUMap.set
  simp only []
  have hkk2 : (k : K) ≠ k2 := by
    intro hcontra
    rw [hcontra, hk2] at hk
    cases hk
  have herase2 : lookupKey (eraseKey m.entries k) k2 = none := by
    unfold lookupKey at hk2 ⊢
    unfold eraseKey
    rw [Option.map_eq_none', List.find?_eq_none] at hk2 ⊢
    intro x hx
    exact hk2 x (List.mem_of_mem_filter hx)
  have h1 : lookupKey (eraseKey m.entries k ++ [(k, v)]) k2 = none := by
    rw [lookupKey_append_left_none _ _ _ herase2]
    unfold lookupKey
    rw [Option.map_eq_none', List.find?_eq_none]
    intro x hx
    rcases List.mem_singleton.mp hx with rfl
    simpa using fun hcontra => hkk2 hcontra
  rw [eraseKey_of_lookup_none _ _ h1]
  have hself : lookupKey (eraseKey m.entries k) k = none := lookupKey_eraseKey_self m.entries k
  unfold LRUMap.hasKey
  split
  · rename_i hgt
    cases he : eraseKey m.entries k with
    | nil =>
      rw [he] at hgt
      simp at hgt
      omega
    | cons a t =>
      have htail : (((a :: t) ++ [(k, v)]) ++ [(k2, w)]).tail = (t ++ [(k, v)]) ++ [(k2, w)] := rfl
      rw [htail]
      have htn : lookupKey t k = none := by
        rw [he] at hself
        exact lookupKey_cons_none hself
      rw [List.append_assoc, lookupKey_append_left_none _ _ _ htn,
        List.singleton_append, lookupKey_cons_self]
      rfl
  · rw [List.append_assoc, lookupKey_append_left_none _ _ _ hself,
      List.singleton_append, lookupKey_cons_self]
    rfl

theorem lru_set_mru (m : LRUMap K V) (k : K) (v w : V)
    (hk : lookupKey m.entries k = some w) (hlen : m.entries.length ≤ m.maxSize) :
    (m.set k v).entries = eraseKey m.entries k ++ [(k, v)] := by
  unfold LRUMap.set
  simp only []
  have hlt := eraseKey_length_lt m.entries k w hk
  rw [if_neg (by simp only [List.length_append, List.length_singleton]; omega :
    ¬ (eraseKey m.entries k ++ [(k, v)]).length > m.maxSize)]

theorem lru_get_absent (m : LRUMap K V) (k : K)
    (habs : lookupKey m.entries k = none) : m.get k = (none, m) := by
  unfold LRUMap.get
  rw [habs]

end LRUBehaviourHelpers

/-! ## Claim theorems -/

/-- C1 counterexample: with a cached profile, a cold screenshot cache, a
healthy browser and a successful capture (`render = .ok [1, 2, 3]`), a
failing `setCachedImage` write (awaited inside the route's `try` block)
makes the route answer the 500 catch-all instead of returning the captured
bytes — so the claim that a cache-write failure never turns a successful
render into an error response is false on this code. -/
theorem c1_counterexample :
    (screenshotRequest c1CounterEnv ("alice") .missing .missing .missing none 0).1
        = .renderFailed ∧
    c1CounterEnv.render = .ok [1, 2, 3] := by
  exact ⟨rfl, rfl⟩

/-- C1 amended: for a render request that passes validation, has a cached
profile, misses the screenshot cache, and captures successfully, the bytes
are returned if and only if the subsequent cache write also succeeds; a
cache-write failure is caught by the route's catch block and yields the 500
render-failure response, discarding the rendered bytes. -/
theorem c1_amended (env : ScreenshotEnv) (uname : String) (rawW rawH : RawParam Int)
    (rawScale : RawParam ℚ) (rawTheme : Option String) (now : Int) (img : List Nat)
    (hdims : screenshotDimsValid (parseWidth rawW) (parseHeight rawH) (parseScale rawScale) = true)
    (huser : validUsername (cleanUsername uname) = true)
    (hprof : env.profileCached = true)
    (hmiss : ∀ k, freshImage (env.getCachedImage k) now = none)
    (hbrowser : env.browserAvailable = true)
    (hrender : env.render = .ok img) :
    (env.cacheWrite = .ok () →
      screenshotRequest env uname rawW rawH rawScale rawTheme now = (.bytes img, true)) ∧
    (env.cacheWrite = .error () →
      screenshotRequest env uname rawW rawH rawScale rawTheme now = (.renderFailed, true)) := by
  obtain ⟨w, h, sc, hw, hh, hs⟩ := screenshot_parses_of_valid rawW rawH rawScale hdims
  rw [hw, hh, hs] at hdims
  rw [screenshotRequest_eq_core env uname rawW rawH rawScale rawTheme now w h sc hw hh hs hdims]
  simp only [screenshotCore, huser, hprof, hmiss, hbrowser, hrender]
  constructor
  · intro hcw
    simp [hcw]
  · intro hcw
    simp [hcw]

/-- C1 witness: the amended theorem applied to a concrete passing request
whose cache write succeeds. -/
theorem c1_amended_witness :
    screenshotRequest c1WitnessEnv ("alice") .missing .missing .missing none 0
      = (.bytes [5], true) :=
  (c1_amended c1WitnessEnv ("alice") .missing .missing .missing none 0 [5]
    (by decide) (by decide) rfl (fun _ => rfl) rfl rfl).1 rfl

/-- C2 counterexample: the broad and narrow limiters share the one
`rateLimitStore`.  On an empty store the first `/user` cache-miss fetch from
a client succeeds, but the second — one millisecond later, after only one
prior profile fetch, far below the ceiling of 3 — is denied by the 24h/3
check, because the timestamps the broad `globalLimiter` pushed for the same
requests count toward the narrow decision (the first request alone leaves
two timestamps).  Against a store holding only the single event the narrow
check itself recorded, the second call would have been allowed. -/
theorem c2_counterexample :
    (userRequest true false none rateLimitStore0 ("alice") ("ip") 0).1 = .fetched ∧
    (userRequest true false none c2FetchedStore ("alice") ("ip") 1).1 = .rateLimited 86400 ∧
    (userRouteRateCheck ⟨10000, [(("ip"), [0])]⟩ ("ip") 1).1 = true := by
  decide

/-- C2 amended: the two limiter configurations share one per-client
timestamp store, so broad-limiter events count toward the narrow
24h/ceiling-3 decision (three broad-only requests suffice to deny the
first-ever profile fetch).  A profile request served from a fresh
profile-cache entry, however, never reaches the narrow check: it is never
denied as rate-limited and returns the store exactly as the broad limiter's
own bookkeeping left it. -/
theorem c2_amended :
    (∀ (xA dRL : Bool) (store : LRUMap String (List Int)) (uname ip : String)
        (now t : Int), now - t < PROFILE_CACHE_TTL →
      (∀ r : Int, (userRequest xA dRL (some t) store uname ip now).1 ≠ .rateLimited r) ∧
      (userRequest xA dRL (some t) store uname ip now).2
        = (globalLimiterCheck store ip now).store) ∧
    (userRequest true false none c2BroadStore ("alice") ("ip") 3).1 = .rateLimited 86400 := by
  constructor
  · intro xA dRL store uname ip now t hfresh
    constructor
    · intro r
      unfold userRequest userFetchPath
      simp only []
      split_ifs <;>
        first
          | exact absurd (decide_eq_true hfresh) (by assumption)
          | simp
    · unfold userRequest userFetchPath
      simp only []
      split_ifs <;>
        first
          | exact absurd (decide_eq_true hfresh) (by assumption)
          | rfl
  · decide

/-- C2 witness: the amended theorem applied to a concrete fresh cache hit. -/
theorem c2_amended_witness :
    (userRequest true false (some 0) rateLimitStore0 ("alice") ("ip") 0).1
        ≠ .rateLimited 86400 ∧
    (userRequest true false (some 0) rateLimitStore0 ("alice") ("ip") 0).2
        = (globalLimiterCheck rateLimitStore0 ("ip") 0).store := by
  have h := c2_amended.1 true false rateLimitStore0 ("alice") ("ip") 0 0 (by decide)
  exact ⟨h.1 86400, h.2⟩

/-- C3: the hourly sweep prunes every key's timestamps against the broad
15-minute window (`maxWindow = 15 * 60 * 1000`), not the window of the
limiter that recorded them.  An event recorded by the 24h/3 narrow check
during a `/user` fetch at time 0 is removed (its key deleted outright) by
the sweep one hour later — 1 h being far less than 24 h — so the
3-per-24h count is not preserved across sweeps; this contradicts the code's
own "3/day"/"Try again tomorrow" messages. -/
theorem c3_sweep_failing_input :
    (userRequest true false none rateLimitStore0 ("alice") ("ip") 0).1 = .fetched ∧
    rateLimitSweep 3600000 5 c3FetchedStore = some rateLimitStore0 := by
  decide

/-- C4 counterexample: ten concurrent `getBrowser()` callers against an
unstarted handle, interleaved so that each runs the
`persistentBrowser?.isConnected()` check before any launch completes,
perform ten `pw.webkit.launch` calls — not exactly one. -/
theorem c4_counterexample :
    ((runSchedule (fun _ => true) ⟨none, 0, 0, 0⟩ (List.replicate 10 .start)
        ((List.range 10) ++ (List.range 10))).1.launches = 10) ∧
    ((runSchedule (fun _ => true) ⟨none, 0, 0, 0⟩ (List.replicate 10 .start)
        ((List.range 10) ++ (List.range 10))).1.launches ≠ 1) := by
  decide

/-- C4 amended: launch is not single-flight.  Serialized acquisitions (each
caller finishing before the next starts) against an unstarted handle produce
exactly one launch whose handle every caller receives; but overlapping
callers that all pass the connectivity check before any launch completes
each trigger their own launch — ten simultaneous acquisitions produce ten
launches, and the handle of the last-completed launch is the one retained. -/
theorem c4_amended :
    ((runSchedule (fun _ => true) ⟨none, 0, 0, 0⟩ (List.replicate 10 .start)
        [0, 0, 1, 1, 2, 2, 3, 3, 4, 4, 5, 5, 6, 6, 7, 7, 8, 8, 9, 9]).1.launches = 1 ∧
     (runSchedule (fun _ => true) ⟨none, 0, 0, 0⟩ (List.replicate 10 .start)
        [0, 0, 1, 1, 2, 2, 3, 3, 4, 4, 5, 5, 6, 6, 7, 7, 8, 8, 9, 9]).2
        = List.replicate 10 (.done 0)) ∧
    ((runSchedule (fun _ => true) ⟨none, 0, 0, 0⟩ (List.replicate 10 .start)
        ((List.range 10) ++ (List.range 10))).1.launches = 10 ∧
     (runSchedule (fun _ => true) ⟨none, 0, 0, 0⟩ (List.replicate 10 .start)
        ((List.range 10) ++ (List.range 10))).1.persistentBrowser = some 9) := by
  decide

/-- C5: `rateLimiterCheck` is a sliding window.  For every key, a call is
allowed exactly when fewer than `maxRequests` of the key's stored timestamps
survive the pruning to the window `(now − windowMs, now]`; when allowed, the
store afterwards maps the key to the pruned timestamps with `now` appended.
With limit 3 and a 1000 ms window, three calls at 0, 100, 200 all succeed,
a fourth at 300 is denied with a `retryAfter` value (0), and a call at
1201 — after the window has elapsed since the recorded events — succeeds
again. -/
theorem c5_sliding_window :
    (∀ (maxRequests : Nat) (windowMs : Int) (store : LRUMap String (List Int))
        (key : String) (now : Int),
      ((rateLimiterCheck maxRequests windowMs store key now).allowed = true ↔
        (((lookupKey store.entries key).getD []).filter
          (fun t => decide (t > now - windowMs))).length < maxRequests)) ∧
    (∀ (maxRequests : Nat) (windowMs : Int) (store : LRUMap String (List Int))
        (key : String) (now : Int), 1 ≤ store.maxSize →
      (rateLimiterCheck maxRequests windowMs store key now).allowed = true →
      lookupKey (rateLimiterCheck maxRequests windowMs store key now).store.entries key
        = some ((((lookupKey store.entries key).getD []).filter
            (fun t => decide (t > now - windowMs))) ++ [now])) ∧
    ((rateLimiterCheck 3 1000 rateLimitStore0 ("k") 0).allowed = true ∧
     (rateLimiterCheck 3 1000 c5store1 ("k") 100).allowed = true ∧
     (rateLimiterCheck 3 1000 c5store2 ("k") 200).allowed = true ∧
     (rateLimiterCheck 3 1000 c5store3 ("k") 300).allowed = false ∧
     (rateLimiterCheck 3 1000 c5store3 ("k") 300).retryAfter = 0 ∧
     (rateLimiterCheck 3 1000 (rateLimiterCheck 3 1000 c5store3 ("k") 300).store
        ("k") 1201).allowed = true) :=
  ⟨rate_allowed_iff, rate_allowed_effect, by decide⟩

/-- C5 witness: the recording effect applied to the third call of the
concrete scenario — afterwards the key stores exactly `[0, 100, 200]`. -/
theorem c5_sliding_window_witness :
    lookupKey (rateLimiterCheck 3 1000 c5store2 ("k") 200).store.entries ("k")
      = some [0, 100, 200] := by
  have h := c5_sliding_window.2.1 3 1000 c5store2 ("k") 200 (by decide) (by decide)
  have h2 : ((((lookupKey c5store2.entries ("k")).getD []).filter
      (fun t => decide (t > (200 : Int) - 1000))) ++ [(200 : Int)]) = [0, 100, 200] := by
    decide
  rw [h2] at h
  exact h

/-- C6: the `LRUMap` really is a bounded access-order map: (1) starting
empty with capacity N, any sequence of get/set operations leaves at most N
entries; (2) a set of a fresh key at capacity evicts exactly the single
oldest (least-recently-accessed) entry, keeping all others in order;
(3) both get and set move the touched key to most-recently-used position, so
a get on a key before a later overflowing insert protects it from eviction
ahead of a less-recently-touched key; (4) a set of an existing key moves it
to most-recently-used position without evicting; (5) get on an absent key
returns nothing and leaves the map untouched. -/
theorem c6_bounded_lru :
    (∀ (K V : Type) (_inst : DecidableEq K) (n : Nat) (ops : List (LRUOp K V)),
        ((LRUMap.empty K V n).applyOps ops).entries.length ≤ n) ∧
    (∀ (K V : Type) (_inst : DecidableEq K) (m : LRUMap K V) (k : K) (v : V),
        m.entries.length = m.maxSize → 1 ≤ m.maxSize → lookupKey m.entries k = none →
        (m.set k v).entries = m.entries.tail ++ [(k, v)]) ∧
    (∀ (K V : Type) (_inst : DecidableEq K) (m : LRUMap K V) (k k2 : K) (v w : V),
        2 ≤ m.maxSize → lookupKey m.entries k = some v → lookupKey m.entries k2 = none →
        (((m.get k).2).set k2 w).hasKey k = true) ∧
    (∀ (K V : Type) (_inst : DecidableEq K) (m : LRUMap K V) (k : K) (v w : V),
        lookupKey m.entries k = some w → m.entries.length ≤ m.maxSize →
        (m.set k v).entries = eraseKey m.entries k ++ [(k, v)]) ∧
    (∀ (K V : Type) (_inst : DecidableEq K) (m : LRUMap K V) (k : K),
        lookupKey m.entries k = none → m.get k = (none, m)) :=
  ⟨fun _ _ _ n ops => LRUMap.applyOps_length_le n ops,
   fun _ _ _ m k v h1 h2 h3 => lru_evict m k v h1 h2 h3,
   fun _ _ _ m k k2 v w h1 h2 h3 => lru_get_protects m k k2 v w h1 h2 h3,
   fun _ _ _ m k v w h1 h2 => lru_set_mru m k v w h1 h2,
   fun _ _ _ m k h => lru_get_absent m k h⟩

/-- C6 witness: the five parts at concrete capacity-2 maps: the op sequence
set a, set b, get a, set c stays within bound; inserting "c" into a full
map evicts the head; the get of "a" protects it from the eviction caused by
inserting "c"; re-setting "a" moves it to the back; getting an absent key
changes nothing. -/
theorem c6_bounded_lru_witness :
    ((LRUMap.empty String Nat 2).applyOps
        [.set ("a") 1, .set ("b") 2, .get ("a"), .set ("c") 3]).entries.length ≤ 2 ∧
    ((⟨2, [(("a"), 1), (("b"), 2)]⟩ : LRUMap String Nat).set ("c") 3).entries
      = [(("a"), 1), (("b"), 2)].tail ++ [(("c"), 3)] ∧
    ((((⟨2, [(("a"), 1), (("b"), 2)]⟩ : LRUMap String Nat).get ("a")).2).set
        ("c") 3).hasKey ("a") = true ∧
    ((⟨2, [(("a"), 1), (("b"), 2)]⟩ : LRUMap String Nat).set ("a") 5).entries
      = eraseKey [(("a"), 1), (("b"), 2)] ("a") ++ [(("a"), 5)] ∧
    (⟨2, [(("a"), 1)]⟩ : LRUMap String Nat).get ("z") = (none, ⟨2, [(("a"), 1)]⟩) := by
  have h := c6_bounded_lru
  refine ⟨h.1 String Nat inferInstance 2 _, ?_, ?_, ?_, ?_⟩
  · exact h.2.1 String Nat inferInstance ⟨2, [(("a"), 1), (("b"), 2)]⟩ ("c") 3
      (by decide) (by decide) (by decide)
  · exact h.2.2.1 String Nat inferInstance ⟨2, [(("a"), 1), (("b"), 2)]⟩ ("a") ("c") 1 3
      (by decide) (by decide) (by decide)
  · exact h.2.2.2.1 String Nat inferInstance ⟨2, [(("a"), 1), (("b"), 2)]⟩ ("a") 5 1
      (by decide) (by decide)
  · exact h.2.2.2.2 String Nat inferInstance ⟨2, [(("a"), 1)]⟩ ("z") (by decide)

/-- C7: a render request with valid dimensions and a well-formed handle
whose normalized form has no profile-cache entry fails with the 404
"Profile not cached" response, and the render pipeline (browser navigation
and capture) does not run. -/
theorem c7_not_cached (env : ScreenshotEnv) (uname : String) (rawW rawH : RawParam Int)
    (rawScale : RawParam ℚ) (rawTheme : Option String) (now : Int)
    (hdims : screenshotDimsValid (parseWidth rawW) (parseHeight rawH) (parseScale rawScale) = true)
    (huser : validUsername (cleanUsername uname) = true)
    (hprof : env.profileCached = false) :
    screenshotRequest env uname rawW rawH rawScale rawTheme now = (.notCached, false) := by
  obtain ⟨w, h, sc, hw, hh, hs⟩ := screenshot_parses_of_valid rawW rawH rawScale hdims
  rw [hw, hh, hs] at hdims
  rw [screenshotRequest_eq_core env uname rawW rawH rawScale rawTheme now w h sc hw hh hs hdims]
  simp only [screenshotCore, huser, hprof]
  simp

/-- C7 witness: the theorem applied to a concrete uncached request with
maximal valid dimensions. -/
theorem c7_not_cached_witness :
    screenshotRequest c7Env ("alice") (.num 1200) (.num 1000) (.num 4) none 0
      = (.notCached, false) :=
  c7_not_cached c7Env ("alice") (.num 1200) (.num 1000) (.num 4) none 0
    (by decide) (by decide) rfl

/-- C8: the dimension validation is boundary-inclusive — it passes exactly
when width ∈ [100, 1200], height ∈ [100, 1000] and scale ∈ [1, 4]; in
particular width 50 or scale 5 is rejected while (1200, 1000, 4) passes
validation and renders. -/
theorem c8_dims_validation :
    (∀ (w h : Int) (s : ℚ),
        screenshotDimsValid (some w) (some h) (some s) = true ↔
          (100 ≤ w ∧ w ≤ 1200 ∧ 100 ≤ h ∧ h ≤ 1000 ∧ 1 ≤ s ∧ s ≤ 4)) ∧
    ((screenshotRequest c8Env ("alice") (.num 50) .missing .missing none 0).1
        = .invalidDims) ∧
    ((screenshotRequest c8Env ("alice") (.num 1200) (.num 1000) (.num 4) none 0).1
        = .bytes [9]) ∧
    ((screenshotRequest c8Env ("alice") .missing .missing (.num 5) none 0).1
        = .invalidDims) := by
  refine ⟨?_, by decide, by decide, by decide⟩
  intro w h s
  unfold screenshotDimsValid
  simp only [Bool.not_eq_true', Bool.or_eq_false_iff, decide_eq_false_iff_not, not_lt]
  tauto

/-- C8 witness: the characterization applied at the lower boundary. -/
theorem c8_dims_validation_witness :
    screenshotDimsValid (some 100) (some 100) (some 1) = true :=
  (c8_dims_validation.1 100 100 1).mpr (by norm_num)

/-- C9: for a session whose stored token matches the presented one, a token
issued more than 24 h before the check fails validation (the 403 "expired"
path) and the session's entry is removed from the store by that failed
check; a matching token within 24 h passes. -/
theorem c9_token_expiry (store : LRUMap String CsrfData) (uid tok : String)
    (issued now : Int)
    (hstore : lookupKey store.entries uid = some ⟨tok, issued⟩)
    (htok : tok ≠ ("")) (huid : uid ≠ ("")) :
    (now - issued > CSRF_TOKEN_EXPIRY →
      (csrfProtection store (some uid) (some tok) now).1 = .expired ∧
      ((csrfProtection store (some uid) (some tok) now).2).hasKey uid = false) ∧
    (now - issued ≤ CSRF_TOKEN_EXPIRY →
      (csrfProtection store (some uid) (some tok) now).1 = .ok) := by
  unfold csrfProtection
  simp only []
  rw [if_neg (by
    intro hor
    rcases hor with hc | hc
    · exact htok hc
    · exact huid hc)]
  unfold LRUMap.get
  rw [hstore]
  simp only []
  rw [if_neg (by
    intro hne
    exact hne rfl)]
  constructor
  · intro hexp
    rw [if_pos hexp]
    refine ⟨rfl, ?_⟩
    unfold LRUMap.del LRUMap.hasKey
    simp only []
    rw [lookupKey_eraseKey_self]
    rfl
  · intro hle
    rw [if_neg (by omega : ¬ now - issued > CSRF_TOKEN_EXPIRY)]

/-- C9 witness: the theorem applied to a concrete store — a matching token
issued 24 h + 1 s before the check is rejected and its entry removed, and
the same token checked within 24 h passes. -/
theorem c9_token_expiry_witness :
    (csrfProtection c9Store (some ("u1")) (some ("tok")) 86401000).1 = .expired ∧
    ((csrfProtection c9Store (some ("u1")) (some ("tok")) 86401000).2).hasKey ("u1")
        = false ∧
    (csrfProtection c9Store (some ("u1")) (some ("tok")) 100).1 = .ok := by
  have h1 := (c9_token_expiry c9Store ("u1") ("tok") 0 86401000 (by decide)
    (by decide) (by decide)).1 (by decide)
  have h2 := (c9_token_expiry c9Store ("u1") ("tok") 0 100 (by decide)
    (by decide) (by decide)).2 (by decide)
  exact ⟨h1.1, h1.2, h2⟩

/-- C10: absent query parameters receive the defaults before validation —
width 393, height 852, scale 3 — the theme is "light" exactly when the
theme parameter is the string "light" and "dark" otherwise (absence
included); the defaults pass the dimension validation; and they are the
values composed into the screenshot-cache key, as shown by a request with
all parameters absent being served from a cache entry stored under
`alice_393x852_3_dark`. -/
theorem c10_defaults :
    parseWidth .missing = some 393 ∧
    parseHeight .missing = some 852 ∧
    parseScale .missing = some 3 ∧
    (∀ t : Option String,
      (themeOf t = ("light") ↔ t = some ("light")) ∧
      (themeOf t = ("light") ∨ themeOf t = ("dark"))) ∧
    screenshotDimsValid (parseWidth .missing) (parseHeight .missing) (parseScale .missing)
      = true ∧
    screenshotCacheKey ("alice") 393 852 3 (themeOf none) = ("alice_393x852_3_dark") ∧
    (screenshotRequest c10Env ("Alice") .missing .missing .missing none 0).1
      = .cachedBytes [7] := by
  refine ⟨rfl, rfl, rfl, ?_, by decide, by decide, by decide⟩
  intro t
  constructor
  · unfold themeOf
    by_cases ht : t = some ("light")
    · rw [if_pos ht]
      simp [ht]
    · rw [if_neg ht]
      constructor
      · intro hcontra
        exact absurd hcontra (by decide)
      · intro hcontra
        exact absurd hcontra ht
  · unfold themeOf
    by_cases ht : t = some ("light")
    · left
      rw [if_pos ht]
    · right
      rw [if_neg ht]

/-- C10 witness: the theme characterization applied at an absent theme
parameter: the default is "dark". -/
theorem c10_defaults_witness : themeOf none = ("dark") := by
  have h := (c10_defaults.2.2.2.1 none)
  rcases h.2 with hl | hd
  · have := h.1.mp hl
    exact absurd this (by decide)
  · exact hd
